import Mathlib

/-!
Verification development for the review-analysis pipeline of the
ai-reviews-backend repository.  The Python source is shallowly embedded:
dictionaries become association lists over a JSON-like value type,
Django model rows become records, database tables become lists of rows,
and exceptions become explicit outcome constructors.
-/

namespace ReviewPipeline

/-- JSON-like values, modelling the heterogeneous values stored in the
pipeline's context dictionary, step parameters and JSON columns. -/
inductive Val where
  | null : Val
  | bool (b : Bool) : Val
  | num (q : ℚ) : Val
  | str (s : String) : Val
  | list (elems : List Val) : Val
  | dict (entries : List (String × Val)) : Val

/-- Python truthiness (`bool(x)`) for the values we model. -/
def truthy : Val → Bool
  | Val.null => false
  | Val.bool b => b
  | Val.num q => q != 0
  | Val.str s => s != ""
  | Val.list l => !l.isEmpty
  | Val.dict d => !d.isEmpty

/-- Does `pat` occur at the head of `s`? (helper for substring search). -/
def leadMatch : List Char → List Char → Bool
  | [], _ => true
  | _ :: _, [] => false
  | a :: as, b :: bs => a == b && leadMatch as bs

/-- Does `pat` occur anywhere in `s`? (helper for substring search). -/
def hasSub (pat : List Char) : List Char → Bool
  | [] => pat.isEmpty
  | c :: rest => leadMatch pat (c :: rest) || hasSub pat rest

/-- Python substring containment: `pat in s`. -/
def strContains (s pat : String) : Bool :=
  hasSub pat.toList s.toList

/-- Python `str.lower()`, embedded character-wise (the source only
lowercases ASCII keyword text). -/
def strLower (s : String) : String := String.mk (s.toList.map Char.toLower)

/-- The pipeline context: a Python dict with string keys
(insertion-ordered association list, as in CPython). -/
abbrev Ctx := List (String × Val)

/-- `d[k] = v`: replace in place if the key exists, else append (CPython
dict insertion-order semantics). -/
def ctxSet : Ctx → String → Val → Ctx
  | [], k, v => [(k, v)]
  | p :: rest, k, v => if p.1 = k then (k, v) :: rest else p :: ctxSet rest k v

/-- `d.get(k)`: `some v` if the key is present. -/
def ctxGet : Ctx → String → Option Val
  | [], _ => none
  | p :: rest, k => if p.1 = k then some p.2 else ctxGet rest k

/-- `d.get(k, default)`. -/
def ctxGetD (c : Ctx) (k : String) (d : Val) : Val :=
  (ctxGet c k).getD d

/-- `k in d`. -/
def ctxHas (c : Ctx) (k : String) : Bool :=
  (ctxGet c k).isSome

/-- `list(d.keys())`. -/
def ctxKeys (c : Ctx) : List String :=
  c.map (fun p => p.1)

theorem ctxGet_ctxSet_self (c : Ctx) (k : String) (v : Val) :
    ctxGet (ctxSet c k v) k = some v := by
  induction c with
  | nil => simp [ctxSet, ctxGet]
  | cons p rest ih =>
    by_cases hp : p.1 = k
    · simp [ctxSet, ctxGet, hp]
    · simp [ctxSet, ctxGet, hp, ih]

theorem ctxGet_ctxSet_ne (c : Ctx) (k k' : String) (v : Val) (h : k' ≠ k) :
    ctxGet (ctxSet c k v) k' = ctxGet c k' := by
  have hkk : ¬ k = k' := fun hc => h hc.symm
  induction c with
  | nil => simp [ctxSet, ctxGet, hkk]
  | cons p rest ih =>
    by_cases hp : p.1 = k
    · simp [ctxSet, ctxGet, hp, hkk]
    · by_cases hp' : p.1 = k'
      · simp [ctxSet, ctxGet, hp, hp', h]
      · simp [ctxSet, ctxGet, hp, hp', ih]

/-- A review row, as read by the pipeline (fields used by the analysis
steps and the orchestrator). -/
structure Review where
  id : String
  appName : String
  platform : String
  rating : Int
  title : String
  content : String

/-- `ToneDetectionStep._get_tone`: maps polarity to a tone label via the
exact chained comparisons of the source. -/
def getTone (polarity : ℚ) : String :=
  if polarity < -0.5 then "very_negative"
  else if -0.5 ≤ polarity ∧ polarity < -0.1 then "negative"
  else if -0.1 ≤ polarity ∧ polarity ≤ 0.1 then "neutral"
  else if 0.1 < polarity ∧ polarity ≤ 0.5 then "positive"
  else "very_positive"

/-- Positive keyword list of `_simple_polarity_analysis`. -/
def positiveWords : List String :=
  ["good", "great", "excellent", "love", "awesome", "amazing", "best", "perfect"]

/-- Negative keyword list of `_simple_polarity_analysis`. -/
def negativeWords : List String :=
  ["bad", "terrible", "awful", "hate", "worst", "horrible", "poor", "sucks"]

/-- `ToneDetectionStep._simple_polarity_analysis`: rating-derived baseline
blended 70/30 with keyword counts, clamped to [-1, 1]. -/
def simplePolarityAnalysis (content : String) (rating : Int) : ℚ :=
  let basePolarity : ℚ := ((rating : ℚ) - 3) / 2
  let contentLower := strLower content
  let positiveCount : ℚ :=
    ((positiveWords.filter (fun w => strContains contentLower w)).length : ℚ)
  let negativeCount : ℚ :=
    ((negativeWords.filter (fun w => strContains contentLower w)).length : ℚ)
  let wordPolarity := (positiveCount - negativeCount) * 0.1
  let finalPolarity := basePolarity * 0.7 + wordPolarity * 0.3
  max (-1) (min 1 finalPolarity)

/-- `ToneDetectionStep.process` in the deterministic fallback
configuration (VADER and spaCy unavailable): polarity from
`_simple_polarity_analysis`, subjectivity 0.5, synthetic vader scores,
then the four context updates in source order. -/
def toneDetectionProcess (review : Review) (ctx : Ctx) : Ctx :=
  let polarity := simplePolarityAnalysis review.content review.rating
  let vaderScores := Val.dict
    [("compound", Val.num polarity), ("pos", Val.num 0),
     ("neu", Val.num 0), ("neg", Val.num 0)]
  let subjectivity : ℚ := 0.5
  let tone := getTone polarity
  ctxSet (ctxSet (ctxSet (ctxSet ctx
    "tone" (Val.str tone))
    "raw_polarity" (Val.num polarity))
    "raw_subjectivity" (Val.num subjectivity))
    "vader_scores" vaderScores

/-- Step parameters (`PipelineStepConfig.params`), a JSON object. -/
abbrev Params := List (String × Val)

/-- An `AnalysisResult` row's analysis columns (each a JSON-encodable
value, matching what the Python code stores). -/
structure StoredResult where
  tone : Val
  raw_polarity : Val
  raw_subjectivity : Val
  issues : Val
  complex_review : Val
  notes : Val
  confidence : Val
  analysis_source : Val
  full_payload : Val
  flag_support : Val

/-- The `defaults` dictionary handed to
`AnalysisResult.objects.update_or_create`: a field is `none` when its key
is absent from the dictionary (such a field is left untouched on update
and takes the model default on create). -/
structure AnalysisData where
  tone : Option Val
  raw_polarity : Option Val
  raw_subjectivity : Option Val
  issues : Option Val
  complex_review : Option Val
  notes : Option Val
  confidence : Option Val
  analysis_source : Option Val
  full_payload : Option Val
  flag_support : Option Val

/-- Django column defaults of the `AnalysisResult` model, used for fields
absent from `defaults` at row creation. -/
def defaultResult : StoredResult :=
  { tone := Val.str "", raw_polarity := Val.null, raw_subjectivity := Val.null,
    issues := Val.list [], complex_review := Val.null, notes := Val.null,
    confidence := Val.num 1, analysis_source := Val.str "local",
    full_payload := Val.dict [], flag_support := Val.null }

/-- Apply an `update_or_create` defaults dictionary over existing column
values: present keys overwrite, absent keys keep the old value. -/
def applyDefaults (old : StoredResult) (d : AnalysisData) : StoredResult :=
  { tone := d.tone.getD old.tone,
    raw_polarity := d.raw_polarity.getD old.raw_polarity,
    raw_subjectivity := d.raw_subjectivity.getD old.raw_subjectivity,
    issues := d.issues.getD old.issues,
    complex_review := d.complex_review.getD old.complex_review,
    notes := d.notes.getD old.notes,
    confidence := d.confidence.getD old.confidence,
    analysis_source := d.analysis_source.getD old.analysis_source,
    full_payload := d.full_payload.getD old.full_payload,
    flag_support := d.flag_support.getD old.flag_support }

/-- One row of the `AnalysisResult` table (one-to-one key on the review). -/
structure ResultRow where
  reviewKey : String
  resId : String
  data : StoredResult

/-- One row of the `ReviewTicket` table. -/
structure Ticket where
  tid : String
  review : String
  analysisResult : String
  status : String
  priority : Int
  notes : String

/-- The database tables the pipeline writes. -/
structure DBState where
  results : List ResultRow
  tickets : List Ticket

/-- Result of `AnalysisResult.objects.update_or_create(review=…,
defaults=…)`: the new table, the saved row's columns, its id, and the
`created` flag. -/
structure UpsertOutcome where
  rows : List ResultRow
  saved : StoredResult
  resId : String
  created : Bool

/-- `update_or_create` keyed by review: update the existing row with the
defaults if one matches, else insert a fresh row built from the defaults
over the model defaults. -/
def updateOrCreate (rows : List ResultRow) (rid freshId : String)
    (d : AnalysisData) : UpsertOutcome :=
  match rows.find? (fun row => row.reviewKey == rid) with
  | some row =>
      { rows := rows.map (fun u =>
          if u.reviewKey == rid then { u with data := applyDefaults u.data d } else u),
        saved := applyDefaults row.data d, resId := row.resId, created := false }
  | none =>
      let saved := applyDefaults defaultResult d
      { rows := rows ++ [{ reviewKey := rid, resId := freshId, data := saved }],
        saved := saved, resId := freshId, created := true }

/-- `any(needle in issue for issue in v)` over a JSON list of strings
(pipeline issues are always lists of strings; other shapes yield false). -/
def valAnyContains (v : Val) (needle : String) : Bool :=
  match v with
  | Val.list l => l.any (fun x => match x with
      | Val.str s => strContains s needle
      | _ => false)
  | _ => false

/-- `v == ["No specific issue or request detected"]`. -/
def isNoIssueSentinel : Val → Bool
  | Val.list [Val.str s] => s == "No specific issue or request detected"
  | _ => false

/-- String members of a JSON list (pipeline issues are lists of strings). -/
def issueStrings : Val → List String
  | Val.list l => l.filterMap (fun x => match x with
      | Val.str s => some s
      | _ => none)
  | _ => []

/-- `len(v)` for the values the summary counts. -/
def valLen : Val → Nat
  | Val.list l => l.length
  | Val.str s => s.length
  | Val.dict d => d.length
  | _ => 0

/-- Text of a JSON string value (used where the source interpolates a
string-typed column into an f-string). -/
def valText : Val → String
  | Val.str s => s
  | _ => ""

/-- First part of `PersistenceStep.process`: pull `executed_steps` from
the context (default `[]`), append `"persistence"` if absent, and store
the list back. -/
def persistCtxWithSteps (ctx : Ctx) : Ctx :=
  let executedSteps := ctxGetD ctx "executed_steps" (Val.list [])
  let executedSteps' := match executedSteps with
    | Val.list l =>
        if l.any (fun x => match x with
            | Val.str s => s == "persistence"
            | _ => false)
        then Val.list l
        else Val.list (l ++ [Val.str "persistence"])
    | v => v
  ctxSet ctx "executed_steps" executedSteps'

/-- The `analysis_data` dictionary built by `PersistenceStep.process`
(after the `executed_steps` update), including the conditional
`flag_support` for rating ≥ 4 reviews with a `Problem:` issue.  `ts`
stands for `datetime.utcnow().isoformat()`. -/
def buildAnalysisData (review : Review) (ctx2 : Ctx) (ts : String) : AnalysisData :=
  let issues := ctxGetD ctx2 "issues" (Val.list [])
  let base : AnalysisData :=
    { tone := some (ctxGetD ctx2 "tone" (Val.str "neutral")),
      raw_polarity := some (ctxGetD ctx2 "raw_polarity" (Val.num 0)),
      raw_subjectivity := some (ctxGetD ctx2 "raw_subjectivity" (Val.num 0.5)),
      issues := some issues,
      complex_review := some (ctxGetD ctx2 "complex_review" Val.null),
      notes := some (ctxGetD ctx2 "notes" Val.null),
      confidence := some (ctxGetD ctx2 "confidence" (Val.num 1)),
      analysis_source := some (ctxGetD ctx2 "analysis_source" (Val.str "local")),
      full_payload := some (Val.dict
        [("vader_scores", ctxGetD ctx2 "vader_scores" (Val.dict [])),
         ("gpt_cost", ctxGetD ctx2 "gpt_cost" Val.null),
         ("gpt_error", ctxGetD ctx2 "gpt_error" Val.null),
         ("processing_timestamp", Val.str (ts ++ "Z")),
         ("executed_steps", ctxGetD ctx2 "executed_steps" (Val.list [])),
         ("skip_gpt", ctxGetD ctx2 "skip_gpt" Val.null),
         ("context_keys", Val.list ((ctxKeys ctx2).map Val.str))]),
      flag_support := none }
  if 4 ≤ review.rating ∧ isNoIssueSentinel issues = false ∧
      valAnyContains issues "Problem:" = true then
    { base with flag_support := some (Val.str "Yes: Hidden issue in positive review") }
  else base

/-- `PersistenceStep._should_create_ticket`, including the source's
comparison of the stored tone against the labels
`'Very Negative'`/`'Negative'`. -/
def shouldCreateTicket (params : Params) (review : Review) (r : StoredResult) : Bool :=
  let hasProblems := valAnyContains r.issues "Problem:"
  let isComplex := truthy r.complex_review
  let hasSupportFlag := truthy r.flag_support
  let autoTicketForProblems := truthy (ctxGetD params "auto_ticket_for_problems" (Val.bool true))
  let autoTicketForComplex := truthy (ctxGetD params "auto_ticket_for_complex" (Val.bool true))
  let ticketOnlyForNegative := truthy (ctxGetD params "ticket_only_for_negative" (Val.bool false))
  let toneIsNegativeLabel := match r.tone with
    | Val.str "Very Negative" => true
    | Val.str "Negative" => true
    | _ => false
  let problemGate :=
    hasProblems && autoTicketForProblems &&
      (if ticketOnlyForNegative then decide (review.rating ≤ 3) || toneIsNegativeLabel
       else true)
  problemGate || (isComplex && autoTicketForComplex) || hasSupportFlag

/-- Tone weight table of `PersistenceStep._calculate_priority`
(`tone_priorities.get(tone, 1)`). -/
def tonePriority : Val → Int
  | Val.str "very_negative" => 3
  | Val.str "negative" => 2
  | Val.str "neutral" => 1
  | Val.str "positive" => 0
  | Val.str "very_positive" => 0
  | _ => 1

/-- Per-issue severity chain of `_calculate_priority` (case-insensitive
substring tests, first match wins). -/
def issueSeverity (issue : String) : Int :=
  let l := strLower issue
  if strContains l "critical" then 4
  else if strContains l "high" then 3
  else if strContains l "medium" then 2
  else if strContains l "low" then 1
  else 0

/-- `PersistenceStep._calculate_priority`. -/
def calculatePriority (r : StoredResult) : Int :=
  let base := tonePriority r.tone
  let sevSum := ((issueStrings r.issues).map issueSeverity).sum
  let total := base + sevSum + (if truthy r.flag_support then 2 else 0) +
    (if truthy r.complex_review then 1 else 0)
  min total 10

/-- `PersistenceStep._generate_ticket_notes`. -/
def generateTicketNotes (r : StoredResult) : String :=
  let notes1 : List String :=
    if truthy r.flag_support then ["⚠️ " ++ valText r.flag_support] else []
  let notes2 := notes1 ++
    (if truthy r.complex_review then ["🔍 " ++ valText r.complex_review] else [])
  let issueL := issueStrings r.issues
  let notes3 := notes2 ++
    (if truthy r.issues then
      (let problems := issueL.filter (fun i => strContains i "Problem:")
       let requests := issueL.filter (fun i => strContains i "Request:")
       (if !problems.isEmpty then ["🐛 " ++ String.intercalate ", " problems] else []) ++
       (if !requests.isEmpty then ["💡 " ++ String.intercalate ", " requests] else []))
     else [])
  String.intercalate "\n" notes3

/-- The `status__in=['open', 'in_progress']` filter. -/
def isActiveFor (rid : String) (t : Ticket) : Bool :=
  t.review == rid && (t.status == "open" || t.status == "in_progress")

/-- `ReviewTicket.objects.filter(review=…, status__in=…).first()`. -/
def findActiveTicket (tickets : List Ticket) (rid : String) : Option Ticket :=
  tickets.find? (isActiveFor rid)

/-- `PersistenceStep._create_or_update_ticket`.  `opRaises` models an
exception from the enclosed database operations: the method wraps its
whole body in try/except and returns `None` on any error. -/
def createOrUpdateTicket (opRaises : Bool) (tickets : List Ticket)
    (rid resId freshTicketId : String) (r : StoredResult) :
    List Ticket × Option String :=
  if opRaises then (tickets, none)
  else
    match findActiveTicket tickets rid with
    | some t =>
        (tickets.map (fun u =>
          if u.tid == t.tid then { u with analysisResult := resId } else u),
         some t.tid)
    | none =>
        let ticket : Ticket :=
          { tid := freshTicketId, review := rid, analysisResult := resId,
            status := "open", priority := calculatePriority r,
            notes := generateTicketNotes r }
        (tickets ++ [ticket], some ticket.tid)

/-- `PersistenceStep.process`: update `executed_steps`, build and upsert
the analysis data, record id/created in the context, then conditionally
create or update a ticket. -/
def persistProcess (params : Params) (review : Review)
    (ts freshResId freshTicketId : String) (ticketOpRaises : Bool)
    (ctx : Ctx) (st : DBState) : Ctx × DBState :=
  let ctx1 := persistCtxWithSteps ctx
  let d := buildAnalysisData review ctx1 ts
  let up := updateOrCreate st.results review.id freshResId d
  let ctx2 := ctxSet ctx1 "analysis_result_id" (Val.str up.resId)
  let ctx3 := ctxSet ctx2 "analysis_created" (Val.bool up.created)
  if shouldCreateTicket params review up.saved then
    let res := createOrUpdateTicket ticketOpRaises st.tickets review.id up.resId
      freshTicketId up.saved
    let ctx4 := ctxSet ctx3 "ticket_id"
      (match res.2 with
       | some tid => Val.str tid
       | none => Val.null)
    (ctx4, { results := up.rows, tickets := res.1 })
  else (ctx3, { results := up.rows, tickets := st.tickets })

/-- Outcome of the LLM call plus JSON parse inside
`GPTAnalysisStep.process`: the parsed object, or the text of the raised
exception if `_call_gpt`, `json.loads` or the result accesses raise. -/
abbrev GptOutcome := Except String (List (String × Val))

/-- `GPTAnalysisStep._map_tone`. -/
def mapTone : Val → String
  | Val.str "Very Negative" => "very_negative"
  | Val.str "Negative" => "negative"
  | Val.str "Neutral" => "neutral"
  | Val.str "Positive" => "positive"
  | Val.str "Very Positive" => "very_positive"
  | Val.str "very negative" => "very_negative"
  | Val.str "very positive" => "very_positive"
  | _ => "neutral"

/-- `GPTAnalysisStep.process`: no-op without a client, skip checks under
`skip_if_simple`, then either the success update chain or the except
branch recording `gpt_error` and forcing `analysis_source='local'`. -/
def gptProcess (clientConfigured : Bool) (params : Params) (review : Review)
    (callOutcome : GptOutcome) (ctx : Ctx) : Ctx :=
  if !clientConfigured then ctx
  else
    let skipIfSimple := truthy (ctxGetD params "skip_if_simple" (Val.bool true))
    if skipIfSimple && truthy (ctxGetD ctx "skip_gpt" (Val.bool false)) then ctx
    else if skipIfSimple &&
        (ctxHas ctx "complex_review" && !truthy (ctxGetD ctx "complex_review" Val.null)) then
      ctx
    else
      match callOutcome with
      | Except.error e =>
          ctxSet (ctxSet ctx "gpt_error" (Val.str e)) "analysis_source" (Val.str "local")
      | Except.ok gptResult =>
          let ctxA := ctxSet ctx "tone"
            (Val.str (mapTone (ctxGetD gptResult "tone" (ctxGetD ctx "tone" (Val.str "neutral")))))
          let ctxB := ctxSet ctxA "issues"
            (ctxGetD gptResult "issues" (ctxGetD ctx "issues" (Val.list [])))
          let ctxC := ctxSet ctxB "complex_review" (ctxGetD gptResult "complex_review" Val.null)
          let ctxD := ctxSet ctxC "raw_polarity"
            (ctxGetD gptResult "raw_polarity" (ctxGetD ctx "raw_polarity" (Val.num 0)))
          let ctxE := ctxSet ctxD "notes" (ctxGetD gptResult "notes" Val.null)
          let ctxF := ctxSet ctxE "confidence" (ctxGetD gptResult "confidence" (Val.num 0.8))
          let ctxG := ctxSet ctxF "analysis_source" (Val.str "gpt")
          ctxSet ctxG "gpt_cost" (Val.num (200 * 0.0000001 + 100 * 0.0000004))

/-- Outcome of one step's `process` call.  An exception carries the
context and database state as already mutated up to the raise (Python
mutates these in place). -/
inductive StepOutcome where
  | ok (ctx : Ctx) (st : DBState)
  | err (msg : String) (ctx : Ctx) (st : DBState)

/-- A step's `process`, instantiated with its configured parameters. -/
abbrev StepFun := Params → Review → Ctx → DBState → StepOutcome

/-- One enabled `PipelineStepConfig` (its `step_type.key` and `params`),
in execution order. -/
structure StepConfig where
  key : String
  params : Params

/-- `StepRegistry.get_step_class`: key to step, `none` when unregistered. -/
abbrev Registry := String → Option StepFun

/-- The step loop of `run_review_pipeline`: resolve each config's key
(skip silently if unregistered), run `process`, and on exception record
`"<key> (error)"` in the executed list and the error text under
`"<key>_error"` in the context, then continue with the next step. -/
def runSteps (reg : Registry) (review : Review) :
    List StepConfig → Ctx → DBState → List String → Ctx × DBState × List String
  | [], ctx, st, executed => (ctx, st, executed)
  | c :: rest, ctx, st, executed =>
    match reg c.key with
    | none => runSteps reg review rest ctx st executed
    | some f =>
      match f c.params review ctx st with
      | StepOutcome.ok ctx' st' => runSteps reg review rest ctx' st' (executed ++ [c.key])
      | StepOutcome.err e ctxe ste =>
          runSteps reg review rest (ctxSet ctxe (c.key ++ "_error") (Val.str e)) ste
            (executed ++ [c.key ++ " (error)"])

/-- The run summary dictionary returned by `run_review_pipeline`
(`none` fields model keys absent from the returned dictionary). -/
structure RunSummary where
  success : Bool
  reviewId : String
  analysisResultId : Option Val
  ticketId : Option Val
  analysisSource : Option Val
  tone : Option Val
  issuesCount : Option Nat
  gptCost : Option Val
  warning : Option String

/-- The initial context seeded by `run_review_pipeline`. -/
def initialCtx (review : Review) : Ctx :=
  [("review_id", Val.str review.id), ("app_name", Val.str review.appName),
   ("platform", Val.str review.platform), ("rating", Val.num review.rating)]

/-- The minimal `defaults` written by `run_review_pipeline` when no
enabled step config exists. -/
def noStepsAnalysisData (ts : String) : AnalysisData :=
  { tone := some (Val.str "neutral"),
    raw_polarity := some (Val.num 0),
    raw_subjectivity := some (Val.num 0.5),
    issues := some (Val.list [Val.str "No analysis performed - all steps disabled"]),
    analysis_source := some (Val.str "none"),
    confidence := some (Val.num 0),
    full_payload := some (Val.dict
      [("processing_timestamp", Val.str (ts ++ "Z")),
       ("executed_steps", Val.list []),
       ("warning", Val.str "No pipeline steps were enabled")]),
    complex_review := none, notes := none, flag_support := none }

/-- `run_review_pipeline` for an existing review: `configs` is the
enabled step configuration list in execution order; `ts` and
`freshResId` model the wall clock and a fresh row id.  The
missing-persistence check of the source only logs a warning and is
effect-free. -/
def runPipeline (reg : Registry) (configs : List StepConfig) (review : Review)
    (ts freshResId : String) (st : DBState) : RunSummary × DBState :=
  let ctx0 := initialCtx review
  if configs.isEmpty then
    let up := updateOrCreate st.results review.id freshResId (noStepsAnalysisData ts)
    ({ success := true, reviewId := review.id,
       analysisResultId := some (Val.str up.resId),
       ticketId := none, analysisSource := some (Val.str "none"),
       tone := none, issuesCount := none, gptCost := none,
       warning := some "No enabled pipeline steps configured" },
     { results := up.rows, tickets := st.tickets })
  else
    let out := runSteps reg review configs ctx0 st []
    let ctx2 := ctxSet out.1 "executed_steps" (Val.list (out.2.2.map Val.str))
    ({ success := true, reviewId := review.id,
       analysisResultId := some (ctxGetD ctx2 "analysis_result_id" Val.null),
       ticketId := some (ctxGetD ctx2 "ticket_id" Val.null),
       analysisSource := some (ctxGetD ctx2 "analysis_source" (Val.str "local")),
       tone := some (ctxGetD ctx2 "tone" Val.null),
       issuesCount := some (valLen (ctxGetD ctx2 "issues" (Val.list []))),
       gptCost := some (ctxGetD ctx2 "gpt_cost" Val.null),
       warning := none }, out.2.1)

/-- `PersistenceStep` wrapped as a registry entry (it raises nothing). -/
def persistStep (ts freshResId freshTicketId : String) (ticketOpRaises : Bool) : StepFun :=
  fun params review ctx st =>
    let out := persistProcess params review ts freshResId freshTicketId ticketOpRaises ctx st
    StepOutcome.ok out.1 out.2

/-- `GPTAnalysisStep` wrapped as a registry entry (its `process` catches
all call/parse exceptions itself). -/
def gptStep (clientConfigured : Bool) (callOutcome : GptOutcome) : StepFun :=
  fun params review ctx st =>
    StepOutcome.ok (gptProcess clientConfigured params review callOutcome ctx) st

/-- `ToneDetectionStep` wrapped as a registry entry. -/
def toneStep : StepFun :=
  fun _ review ctx st => StepOutcome.ok (toneDetectionProcess review ctx) st

/-- The registry holding the deterministic modelled steps. -/
def stdRegistry (ts freshResId freshTicketId : String) (ticketOpRaises : Bool)
    (clientConfigured : Bool) (callOutcome : GptOutcome) : Registry :=
  fun key =>
    if key = "tone_detection" then some toneStep
    else if key = "gpt_analysis" then some (gptStep clientConfigured callOutcome)
    else if key = "persistence" then
      some (persistStep ts freshResId freshTicketId ticketOpRaises)
    else none

/-- The stored `AnalysisResult` row for a review, if any. -/
def savedRowFor (st : DBState) (rid : String) : Option ResultRow :=
  st.results.find? (fun row => row.reviewKey == rid)

/-- One entry of a stored `full_payload` JSON object. -/
def payloadField (r : StoredResult) (k : String) : Val :=
  match r.full_payload with
  | Val.dict entries => ctxGetD entries k Val.null
  | _ => Val.null

/-- Number of `AnalysisResult` rows stored for a review. -/
def rowCount (rows : List ResultRow) (rid : String) : Nat :=
  rows.countP (fun row => row.reviewKey == rid)

/-- Number of active (open or in_progress) tickets of a review. -/
def activeCount (tickets : List Ticket) (rid : String) : Nat :=
  tickets.countP (isActiveFor rid)

theorem find?_map_pres {α : Type} {p : α → Bool} {g : α → α}
    (hg : ∀ u, p (g u) = p u) (l : List α) :
    (l.map g).find? p = (l.find? p).map g := by
  induction l with
  | nil => rfl
  | cons a t ih =>
    by_cases ha : p a
    · simp [List.find?, hg, ha]
    · simp only [List.map_cons, List.find?, hg a, ha]
      simpa [ha] using ih

theorem find?_append_of_none {α : Type} {p : α → Bool} {l1 : List α}
    (l2 : List α) (h : l1.find? p = none) :
    (l1 ++ l2).find? p = l2.find? p := by
  induction l1 with
  | nil => rfl
  | cons a t ih =>
    by_cases ha : p a
    · simp [List.find?, ha] at h
    · simp only [List.find?, ha] at h
      simpa [List.find?, ha] using ih h

theorem countP_map_pres {α : Type} {p : α → Bool} {g : α → α}
    (hg : ∀ u, p (g u) = p u) (l : List α) :
    (l.map g).countP p = l.countP p := by
  induction l with
  | nil => rfl
  | cons a t ih => simp [List.countP_cons, hg, ih]

theorem countP_zero_of_find?_none {α : Type} {p : α → Bool} {l : List α}
    (h : l.find? p = none) : l.countP p = 0 := by
  induction l with
  | nil => rfl
  | cons a t ih =>
    by_cases ha : p a
    · simp [List.find?, ha] at h
    · simp only [List.find?, ha] at h
      simp [List.countP_cons, ha, ih h]

theorem updateOrCreate_find (rows : List ResultRow) (rid freshId : String)
    (d : AnalysisData) :
    (updateOrCreate rows rid freshId d).rows.find? (fun row => row.reviewKey == rid) =
      some { reviewKey := rid, resId := (updateOrCreate rows rid freshId d).resId,
             data := (updateOrCreate rows rid freshId d).saved } := by
  unfold updateOrCreate
  cases hfind : rows.find? (fun row => row.reviewKey == rid) with
  | some row0 =>
    dsimp only
    have hg : ∀ u : ResultRow,
        ((if u.reviewKey == rid then
            { u with data := applyDefaults u.data d } else u).reviewKey == rid) =
          (u.reviewKey == rid) := by
      intro u
      by_cases hu : u.reviewKey == rid <;> simp [hu]
    rw [find?_map_pres hg, hfind]
    have hp := List.find?_some hfind
    obtain ⟨k, i, dta⟩ := row0
    have hkey : k = rid := by simpa using hp
    subst hkey
    simp
  | none =>
    dsimp only
    rw [find?_append_of_none _ hfind]
    simp [List.find?]

theorem updateOrCreate_rowCount (rows : List ResultRow) (rid freshId : String)
    (d : AnalysisData) (rid' : String) (h : rowCount rows rid' ≤ 1) :
    rowCount (updateOrCreate rows rid freshId d).rows rid' ≤ 1 := by
  unfold rowCount at *
  unfold updateOrCreate
  cases hfind : rows.find? (fun row => row.reviewKey == rid) with
  | some row0 =>
    dsimp only
    have hg : ∀ u : ResultRow,
        ((if u.reviewKey == rid then
            { u with data := applyDefaults u.data d } else u).reviewKey == rid') =
          (u.reviewKey == rid') := by
      intro u
      by_cases hu : u.reviewKey == rid <;> simp [hu]
    rw [countP_map_pres hg]
    exact h
  | none =>
    dsimp only
    rw [List.countP_append]
    by_cases hsame : rid' = rid
    · subst hsame
      have h0 := countP_zero_of_find?_none hfind
      simp [h0, List.countP_cons]
    · have hnew : (rid == rid') = false := by
        simpa using fun hc => hsame hc.symm
      simpa [List.countP_cons, hnew] using h

theorem updateOrCreate_saved_shape (rows : List ResultRow) (rid freshId : String)
    (d : AnalysisData) :
    ∃ old, (updateOrCreate rows rid freshId d).saved = applyDefaults old d := by
  unfold updateOrCreate
  cases hfind : rows.find? (fun row => row.reviewKey == rid) with
  | some row0 => exact ⟨row0.data, rfl⟩
  | none => exact ⟨defaultResult, rfl⟩

end ReviewPipeline

namespace ReviewPipeline

/-- Claim C8: the tone-detection mapping yields very_negative iff
polarity < −0.5, negative iff −0.5 ≤ polarity < −0.1, neutral iff
−0.1 ≤ polarity ≤ 0.1, positive iff 0.1 < polarity ≤ 0.5, and
very_positive iff polarity > 0.5; in particular −0.5 maps to negative,
0.1 to neutral and 0.5 to positive. -/
theorem C8_tone_threshold_boundaries (p : ℚ) :
    (getTone p = "very_negative" ↔ p < -0.5) ∧
    (getTone p = "negative" ↔ -0.5 ≤ p ∧ p < -0.1) ∧
    (getTone p = "neutral" ↔ -0.1 ≤ p ∧ p ≤ 0.1) ∧
    (getTone p = "positive" ↔ 0.1 < p ∧ p ≤ 0.5) ∧
    (getTone p = "very_positive" ↔ 0.5 < p) ∧
    getTone (-0.5) = "negative" ∧ getTone 0.1 = "neutral" ∧
    getTone 0.5 = "positive" := by
  have key : ((getTone p = "very_negative" ↔ p < -0.5) ∧
      (getTone p = "negative" ↔ -0.5 ≤ p ∧ p < -0.1) ∧
      (getTone p = "neutral" ↔ -0.1 ≤ p ∧ p ≤ 0.1) ∧
      (getTone p = "positive" ↔ 0.1 < p ∧ p ≤ 0.5) ∧
      (getTone p = "very_positive" ↔ 0.5 < p)) := by
    unfold getTone
    split_ifs with h1 h2 h3 h4
    · exact ⟨iff_of_true rfl h1,
        iff_of_false (by decide) (fun hx => by linarith [hx.1]),
        iff_of_false (by decide) (fun hx => by linarith [hx.1]),
        iff_of_false (by decide) (fun hx => by linarith [hx.1]),
        iff_of_false (by decide) (fun hx => by linarith)⟩
    · exact ⟨iff_of_false (by decide) (fun hx => by linarith [h2.1]),
        iff_of_true rfl h2,
        iff_of_false (by decide) (fun hx => by linarith [h2.2, hx.1]),
        iff_of_false (by decide) (fun hx => by linarith [h2.2, hx.1]),
        iff_of_false (by decide) (fun hx => by linarith [h2.2])⟩
    · exact ⟨iff_of_false (by decide) (fun hx => by linarith [h3.1]),
        iff_of_false (by decide) (fun hx => by linarith [h3.1, hx.2]),
        iff_of_true rfl h3,
        iff_of_false (by decide) (fun hx => by linarith [h3.2, hx.1]),
        iff_of_false (by decide) (fun hx => by linarith [h3.2])⟩
    · exact ⟨iff_of_false (by decide) (fun hx => by linarith [h4.1]),
        iff_of_false (by decide) (fun hx => by linarith [h4.1, hx.2]),
        iff_of_false (by decide) (fun hx => by linarith [h4.1, hx.2]),
        iff_of_true rfl h4,
        iff_of_false (by decide) (fun hx => by linarith [h4.2])⟩
    · push_neg at h1 h2 h3 h4
      have hp5 : 0.5 < p := h4 (h3 (h2 h1))
      exact ⟨iff_of_false (by decide) (fun hx => by linarith),
        iff_of_false (by decide) (fun hx => by linarith [hx.2]),
        iff_of_false (by decide) (fun hx => by linarith [hx.2]),
        iff_of_false (by decide) (fun hx => by linarith [hx.2]),
        iff_of_true rfl hp5⟩
  exact ⟨key.1, key.2.1, key.2.2.1, key.2.2.2.1, key.2.2.2.2,
    by norm_num [getTone], by norm_num [getTone], by norm_num [getTone]⟩

/-- A concrete review used by the closed-form witnesses. -/
def reviewW : Review :=
  { id := "r1", appName := "Game", platform := "apple", rating := 5,
    title := "Nice", content := "ok" }

/-- The empty database. -/
def dbEmpty : DBState := { results := [], tickets := [] }

/-- Claim C1: when an enabled step's `process` raises during a pipeline
run, the orchestrator records `"<key> (error)"` in `executed_steps`,
stores the error text under `"<key>_error"` in the context, continues
the run on all remaining enabled steps from the state the failed step
left behind (so every later enabled step still executes and contributes
to the final result), and the completed run returns a summary with
`success=true` — a failing step never aborts the run. -/
theorem C1_failing_step_never_aborts_run
    (reg : Registry) (review : Review) (c : StepConfig) (rest : List StepConfig)
    (ctx : Ctx) (st : DBState) (executed : List String)
    (f : StepFun) (e : String) (ctxe : Ctx) (ste : DBState)
    (hreg : reg c.key = some f)
    (herr : f c.params review ctx st = StepOutcome.err e ctxe ste) :
    runSteps reg review (c :: rest) ctx st executed =
      runSteps reg review rest
        (ctxSet ctxe (c.key ++ "_error") (Val.str e)) ste
        (executed ++ [c.key ++ " (error)"]) ∧
    ctxGet (ctxSet ctxe (c.key ++ "_error") (Val.str e)) (c.key ++ "_error") =
      some (Val.str e) ∧
    ∀ (configs : List StepConfig) (ts freshResId : String) (st0 : DBState),
      (runPipeline reg configs review ts freshResId st0).1.success = true := by
  refine ⟨?_, ctxGet_ctxSet_self _ _ _, ?_⟩
  · simp only [runSteps, hreg, herr]
  · intro configs ts fr st0
    unfold runPipeline
    by_cases hc : configs.isEmpty <;> simp [hc]

/-- A step whose `process` always raises (concrete input for C1). -/
def failStepW : StepFun := fun _ _ ctx st => StepOutcome.err "boom" ctx st

/-- A registry holding only the failing step (concrete input for C1). -/
def regW : Registry := fun key => if key = "step_a" then some failStepW else none

/-- Witness for C1: a concrete run whose single step raises "boom". -/
theorem C1_failing_step_never_aborts_run_witness :
    (runSteps regW reviewW [⟨"step_a", []⟩] [] dbEmpty [] =
      runSteps regW reviewW []
        (ctxSet [] "step_a_error" (Val.str "boom")) dbEmpty ["step_a (error)"]) ∧
    ctxGet (ctxSet [] "step_a_error" (Val.str "boom")) "step_a_error" =
      some (Val.str "boom") ∧
    (runPipeline regW [⟨"step_a", []⟩] reviewW "T" "A1" dbEmpty).1.success = true :=
  ⟨(C1_failing_step_never_aborts_run regW reviewW ⟨"step_a", []⟩ [] [] dbEmpty []
      failStepW "boom" [] dbEmpty rfl rfl).1,
   (C1_failing_step_never_aborts_run regW reviewW ⟨"step_a", []⟩ [] [] dbEmpty []
      failStepW "boom" [] dbEmpty rfl rfl).2.1,
   (C1_failing_step_never_aborts_run regW reviewW ⟨"step_a", []⟩ [] [] dbEmpty []
      failStepW "boom" [] dbEmpty rfl rfl).2.2 [⟨"step_a", []⟩] "T" "A1" dbEmpty⟩

/-- Claim C7: a run that finds zero enabled step configurations writes
an AnalysisResult with tone=neutral, analysis_source=none, confidence=0
and the single disabled-steps issue, runs no step (the outcome does not
depend on the registry), creates no ticket, and returns a success
summary carrying a warning. -/
theorem C7_zero_enabled_steps
    (reg reg' : Registry) (review : Review) (ts freshResId : String) (st : DBState) :
    (runPipeline reg [] review ts freshResId st).1.success = true ∧
    (runPipeline reg [] review ts freshResId st).1.warning =
      some "No enabled pipeline steps configured" ∧
    (runPipeline reg [] review ts freshResId st).1.analysisSource =
      some (Val.str "none") ∧
    (runPipeline reg [] review ts freshResId st).1.ticketId = none ∧
    (runPipeline reg [] review ts freshResId st).2.tickets = st.tickets ∧
    runPipeline reg' [] review ts freshResId st =
      runPipeline reg [] review ts freshResId st ∧
    ∃ row ∈ (runPipeline reg [] review ts freshResId st).2.results,
      row.reviewKey = review.id ∧
      row.data.tone = Val.str "neutral" ∧
      row.data.analysis_source = Val.str "none" ∧
      row.data.confidence = Val.num 0 ∧
      row.data.issues =
        Val.list [Val.str "No analysis performed - all steps disabled"] := by
  have hrow := updateOrCreate_find st.results review.id freshResId (noStepsAnalysisData ts)
  obtain ⟨old, hshape⟩ :=
    updateOrCreate_saved_shape st.results review.id freshResId (noStepsAnalysisData ts)
  refine ⟨rfl, rfl, rfl, rfl, rfl, rfl,
    ⟨_, List.mem_of_find?_eq_some hrow, rfl, ?_, ?_, ?_, ?_⟩⟩ <;>
    (rw [hshape]; rfl)

/-- Claim C6: when the LLM call or the parsing of its response inside
the gpt_analysis step raises (and the step actually reaches the call:
client configured, skip conditions false), the step returns the context
with tone, issues, complex_review, raw_polarity, notes and confidence
unchanged, records the error text under gpt_error, and sets
analysis_source to "local"; being a total function of the embedding, it
propagates no exception. -/
theorem C6_gpt_failure_keeps_local_analysis
    (params : Params) (review : Review) (ctx : Ctx) (e : String)
    (h1 : (truthy (ctxGetD params "skip_if_simple" (Val.bool true)) &&
           truthy (ctxGetD ctx "skip_gpt" (Val.bool false))) = false)
    (h2 : (truthy (ctxGetD params "skip_if_simple" (Val.bool true)) &&
           (ctxHas ctx "complex_review" &&
            !truthy (ctxGetD ctx "complex_review" Val.null))) = false) :
    ctxGet (gptProcess true params review (Except.error e) ctx) "tone" =
      ctxGet ctx "tone" ∧
    ctxGet (gptProcess true params review (Except.error e) ctx) "issues" =
      ctxGet ctx "issues" ∧
    ctxGet (gptProcess true params review (Except.error e) ctx) "complex_review" =
      ctxGet ctx "complex_review" ∧
    ctxGet (gptProcess true params review (Except.error e) ctx) "raw_polarity" =
      ctxGet ctx "raw_polarity" ∧
    ctxGet (gptProcess true params review (Except.error e) ctx) "notes" =
      ctxGet ctx "notes" ∧
    ctxGet (gptProcess true params review (Except.error e) ctx) "confidence" =
      ctxGet ctx "confidence" ∧
    ctxGet (gptProcess true params review (Except.error e) ctx) "gpt_error" =
      some (Val.str e) ∧
    ctxGet (gptProcess true params review (Except.error e) ctx) "analysis_source" =
      some (Val.str "local") := by
  have hout : gptProcess true params review (Except.error e) ctx =
      ctxSet (ctxSet ctx "gpt_error" (Val.str e)) "analysis_source" (Val.str "local") := by
    simp [gptProcess, h1, h2]
  refine ⟨?_, ?_, ?_, ?_, ?_, ?_, ?_, ?_⟩ <;> rw [hout]
  · rw [ctxGet_ctxSet_ne _ _ _ _ (by decide), ctxGet_ctxSet_ne _ _ _ _ (by decide)]
  · rw [ctxGet_ctxSet_ne _ _ _ _ (by decide), ctxGet_ctxSet_ne _ _ _ _ (by decide)]
  · rw [ctxGet_ctxSet_ne _ _ _ _ (by decide), ctxGet_ctxSet_ne _ _ _ _ (by decide)]
  · rw [ctxGet_ctxSet_ne _ _ _ _ (by decide), ctxGet_ctxSet_ne _ _ _ _ (by decide)]
  · rw [ctxGet_ctxSet_ne _ _ _ _ (by decide), ctxGet_ctxSet_ne _ _ _ _ (by decide)]
  · rw [ctxGet_ctxSet_ne _ _ _ _ (by decide), ctxGet_ctxSet_ne _ _ _ _ (by decide)]
  · rw [ctxGet_ctxSet_ne _ _ _ _ (by decide), ctxGet_ctxSet_self]
  · rw [ctxGet_ctxSet_self]

/-- Witness for C6: a concrete failing call with error text "timeout". -/
theorem C6_gpt_failure_keeps_local_analysis_witness :
    ctxGet (gptProcess true [] reviewW (Except.error "timeout") []) "gpt_error" =
      some (Val.str "timeout") ∧
    ctxGet (gptProcess true [] reviewW (Except.error "timeout") []) "analysis_source" =
      some (Val.str "local") ∧
    ctxGet (gptProcess true [] reviewW (Except.error "timeout") []) "tone" =
      ctxGet ([] : Ctx) "tone" :=
  ⟨(C6_gpt_failure_keeps_local_analysis [] reviewW [] "timeout" rfl rfl).2.2.2.2.2.2.1,
   (C6_gpt_failure_keeps_local_analysis [] reviewW [] "timeout" rfl rfl).2.2.2.2.2.2.2,
   (C6_gpt_failure_keeps_local_analysis [] reviewW [] "timeout" rfl rfl).1⟩

/-- The tone-weight table as stated by the claim:
very_negative 3, negative 2, neutral 1, positive 0, very_positive 0. -/
def claimToneWeight (t : String) : Int :=
  if t = "very_negative" then 3
  else if t = "negative" then 2
  else if t = "neutral" then 1
  else 0

theorem issueSeverity_nonneg (i : String) : 0 ≤ issueSeverity i := by
  simp only [issueSeverity]
  split_ifs <;> norm_num

/-- Claim C5: for an analysis result with one of the five tone labels, a
newly created ticket's priority equals clamp(0,10, tone_weight[tone] +
Σ severity_weight(issue) + 2·has_support_flag + 1·has_complex_reason),
where severity_weight scans each issue case-insensitively for
critical(+4)/high(+3)/medium(+2)/low(+1); and the stored priority always
lies in [0,10] even when the raw sum exceeds 10. -/
theorem C5_priority_clamped_formula (r : StoredResult) (t : String)
    (htone : r.tone = Val.str t)
    (ht : t = "very_negative" ∨ t = "negative" ∨ t = "neutral" ∨
          t = "positive" ∨ t = "very_positive") :
    calculatePriority r =
      max 0 (min (claimToneWeight t + ((issueStrings r.issues).map issueSeverity).sum +
        (if truthy r.flag_support then 2 else 0) +
        (if truthy r.complex_review then 1 else 0)) 10) ∧
    0 ≤ calculatePriority r ∧ calculatePriority r ≤ 10 := by
  have hsev : 0 ≤ ((issueStrings r.issues).map issueSeverity).sum := by
    apply List.sum_nonneg
    intro x hx
    obtain ⟨i, hi, hxe⟩ := List.mem_map.mp hx
    exact hxe ▸ issueSeverity_nonneg i
  have htw : tonePriority r.tone = claimToneWeight t := by
    rw [htone]
    rcases ht with h | h | h | h | h <;> subst h <;> rfl
  have htw0 : 0 ≤ claimToneWeight t := by
    rcases ht with h | h | h | h | h <;> subst h <;> decide
  have hif2 : (0:ℤ) ≤ if truthy r.flag_support then 2 else 0 := by
    split_ifs <;> norm_num
  have hif1 : (0:ℤ) ≤ if truthy r.complex_review then 1 else 0 := by
    split_ifs <;> norm_num
  have h0 : 0 ≤ claimToneWeight t + ((issueStrings r.issues).map issueSeverity).sum +
      (if truthy r.flag_support then (2:ℤ) else 0) +
      (if truthy r.complex_review then (1:ℤ) else 0) := by
    linarith
  have hcalc : calculatePriority r =
      min (claimToneWeight t + ((issueStrings r.issues).map issueSeverity).sum +
        (if truthy r.flag_support then 2 else 0) +
        (if truthy r.complex_review then 1 else 0)) 10 := by
    simp only [calculatePriority]
    rw [htw]
  have hmin0 : (0:ℤ) ≤
      min (claimToneWeight t + ((issueStrings r.issues).map issueSeverity).sum +
        (if truthy r.flag_support then 2 else 0) +
        (if truthy r.complex_review then 1 else 0)) 10 :=
    le_min h0 (by norm_num)
  refine ⟨?_, ?_, ?_⟩
  · rw [hcalc, max_eq_right hmin0]
  · rw [hcalc]
    exact hmin0
  · rw [hcalc]
    exact min_le_right _ _

/-- A concrete analysis result whose raw priority sum is 18
(3 critical issues + very_negative tone + support flag + complex). -/
def rC5 : StoredResult :=
  { tone := Val.str "very_negative",
    raw_polarity := Val.num (-0.9), raw_subjectivity := Val.num 0.5,
    issues := Val.list
      [Val.str "Problem: save/progress (critical severity)",
       Val.str "Problem: data loss (critical severity)",
       Val.str "Problem: corrupt file (critical severity)"],
    complex_review := Val.str "Need review: Mixed sentiments",
    notes := Val.null, confidence := Val.num 0.9,
    analysis_source := Val.str "local",
    full_payload := Val.dict [],
    flag_support := Val.str "Yes: Hidden issue in positive review" }

/-- Witness for C5: the raw sum 3+12+2+1=18 is stored as priority 10. -/
theorem C5_priority_clamped_formula_witness :
    calculatePriority rC5 = 10 ∧
    0 ≤ calculatePriority rC5 ∧ calculatePriority rC5 ≤ 10 := by
  have h := C5_priority_clamped_formula rC5 "very_negative" rfl (Or.inl rfl)
  refine ⟨?_, h.2.1, h.2.2⟩
  rw [h.1]
  decide

/-- The result row saved by one execution of the persistence step. -/
def persistedResult (review : Review) (ctx : Ctx) (ts freshResId : String)
    (rows : List ResultRow) : StoredResult :=
  (updateOrCreate rows review.id freshResId
    (buildAnalysisData review (persistCtxWithSteps ctx) ts)).saved

theorem sentinel_has_no_problem (v : Val)
    (hprob : valAnyContains v "Problem:" = true) :
    isNoIssueSentinel v = false := by
  by_cases hs : isNoIssueSentinel v = true
  · exfalso
    unfold isNoIssueSentinel at hs
    split at hs
    · next s =>
      have hseq : s = "No specific issue or request detected" := by simpa using hs
      subst hseq
      revert hprob
      decide
    · exact absurd hs (by simp)
  · simpa using hs

theorem buildAnalysisData_issues (review : Review) (ctx2 : Ctx) (ts : String) :
    (buildAnalysisData review ctx2 ts).issues =
      some (ctxGetD ctx2 "issues" (Val.list [])) := by
  simp only [buildAnalysisData]
  split_ifs <;> rfl

theorem buildAnalysisData_flag (review : Review) (ctx2 : Ctx) (ts : String)
    (h4 : 4 ≤ review.rating)
    (hprob : valAnyContains (ctxGetD ctx2 "issues" (Val.list [])) "Problem:" = true) :
    (buildAnalysisData review ctx2 ts).flag_support =
      some (Val.str "Yes: Hidden issue in positive review") := by
  have hsent := sentinel_has_no_problem _ hprob
  simp only [buildAnalysisData]
  rw [if_pos ⟨h4, hsent, hprob⟩]

/-- Claim C2: with auto_ticket_for_problems=true and
ticket_only_for_negative=true, for every result the persistence step
saves that contains a "Problem:" issue, a ticket is created or updated
only when the review's rating is ≤ 3, or the stored tone is negative or
very_negative, or flag_support is set — and whenever flag_support is
set a ticket is created regardless of the gate. -/
theorem C2_negative_only_gate_with_support_override
    (params : Params) (review : Review) (ctx : Ctx) (ts freshResId : String)
    (rows : List ResultRow)
    (hp1 : truthy (ctxGetD params "auto_ticket_for_problems" (Val.bool true)) = true)
    (hp2 : truthy (ctxGetD params "ticket_only_for_negative" (Val.bool false)) = true)
    (hprob : valAnyContains (persistedResult review ctx ts freshResId rows).issues
      "Problem:" = true) :
    (shouldCreateTicket params review (persistedResult review ctx ts freshResId rows) = true →
      review.rating ≤ 3 ∨
      (persistedResult review ctx ts freshResId rows).tone = Val.str "negative" ∨
      (persistedResult review ctx ts freshResId rows).tone = Val.str "very_negative" ∨
      truthy (persistedResult review ctx ts freshResId rows).flag_support = true) ∧
    (truthy (persistedResult review ctx ts freshResId rows).flag_support = true →
      shouldCreateTicket params review (persistedResult review ctx ts freshResId rows) = true) := by
  refine ⟨?_, ?_⟩
  · intro _
    by_cases hrat : review.rating ≤ 3
    · exact Or.inl hrat
    · right; right; right
      have h4 : 4 ≤ review.rating := by omega
      obtain ⟨old, hshape⟩ := updateOrCreate_saved_shape rows review.id freshResId
        (buildAnalysisData review (persistCtxWithSteps ctx) ts)
      have hiss : (persistedResult review ctx ts freshResId rows).issues =
          ctxGetD (persistCtxWithSteps ctx) "issues" (Val.list []) := by
        unfold persistedResult
        rw [hshape]
        simp only [applyDefaults]
        rw [buildAnalysisData_issues]
        rfl
      have hprob2 : valAnyContains
          (ctxGetD (persistCtxWithSteps ctx) "issues" (Val.list [])) "Problem:" = true := by
        rw [← hiss]
        exact hprob
      have hflag : (persistedResult review ctx ts freshResId rows).flag_support =
          Val.str "Yes: Hidden issue in positive review" := by
        unfold persistedResult
        rw [hshape]
        simp only [applyDefaults]
        rw [buildAnalysisData_flag review (persistCtxWithSteps ctx) ts h4 hprob2]
        rfl
      rw [hflag]
      decide
  · intro hflag
    simp only [shouldCreateTicket]
    simp [hflag]

/-- Persistence parameters of C2: auto-ticket for problems, restricted
to negative reviews. -/
def paramsC2 : Params :=
  [("auto_ticket_for_problems", Val.bool true),
   ("ticket_only_for_negative", Val.bool true)]

/-- A rating-5 review whose analysis found a problem (concrete C2 input). -/
def reviewC2 : Review :=
  { id := "r2", appName := "Game", platform := "apple", rating := 5,
    title := "Great", content := "great but crashes" }

/-- Context produced by the earlier steps for `reviewC2`: positive tone
but a detected crash problem. -/
def ctxC2 : Ctx :=
  [("tone", Val.str "positive"),
   ("issues", Val.list [Val.str "Problem: crash (high severity)"])]

/-- Witness for C2: the rating-5 positive review with a hidden problem
gets the support flag, and therefore a ticket despite the gate. -/
theorem C2_negative_only_gate_with_support_override_witness :
    shouldCreateTicket paramsC2 reviewC2 (persistedResult reviewC2 ctxC2 "T" "A1" []) = true ∧
    truthy (persistedResult reviewC2 ctxC2 "T" "A1" []).flag_support = true :=
  have hflag : truthy (persistedResult reviewC2 ctxC2 "T" "A1" []).flag_support = true := by
    decide
  ⟨(C2_negative_only_gate_with_support_override paramsC2 reviewC2 ctxC2 "T" "A1" []
      rfl rfl (by decide)).2 hflag, hflag⟩

/-- Claim C9: the persistence step preserves "at most one active ticket
per review": when an active ticket exists it is re-pointed to the new
analysis result and no new ticket is created (table length unchanged);
a new ticket, with status open, is created only when no active ticket
exists. -/
theorem C9_single_active_ticket_invariant
    (opRaises : Bool) (tickets : List Ticket) (rid resId freshTicketId : String)
    (r : StoredResult)
    (hinv : activeCount tickets rid ≤ 1) :
    activeCount (createOrUpdateTicket opRaises tickets rid resId freshTicketId r).1 rid ≤ 1 ∧
    (∀ t, opRaises = false → findActiveTicket tickets rid = some t →
      (createOrUpdateTicket opRaises tickets rid resId freshTicketId r).1 =
        tickets.map (fun u =>
          if u.tid == t.tid then { u with analysisResult := resId } else u) ∧
      (createOrUpdateTicket opRaises tickets rid resId freshTicketId r).1.length =
        tickets.length) ∧
    (opRaises = false → findActiveTicket tickets rid = none →
      (createOrUpdateTicket opRaises tickets rid resId freshTicketId r).1 =
        tickets ++ [{ tid := freshTicketId, review := rid, analysisResult := resId,
                      status := "open", priority := calculatePriority r,
                      notes := generateTicketNotes r }]) := by
  cases opRaises with
  | true =>
    refine ⟨by simpa [createOrUpdateTicket] using hinv, ?_, ?_⟩
    · intro t hc
      exact absurd hc (by decide)
    · intro hc
      exact absurd hc (by decide)
  | false =>
    cases hfind : findActiveTicket tickets rid with
    | some t0 =>
      have hg : ∀ u : Ticket,
          isActiveFor rid (if u.tid == t0.tid then { u with analysisResult := resId } else u) =
            isActiveFor rid u := by
        intro u
        by_cases hu : u.tid == t0.tid <;> simp [hu, isActiveFor]
      refine ⟨?_, ?_, ?_⟩
      · unfold activeCount at *
        simp only [createOrUpdateTicket, hfind, Bool.false_eq_true, if_false]
        rw [countP_map_pres hg]
        exact hinv
      · intro t _ hsome
        injection hsome with heq
        subst heq
        simp [createOrUpdateTicket, hfind]
      · intro _ hnone
        exact absurd hnone (by simp)
    | none =>
      have h0 : tickets.countP (isActiveFor rid) = 0 :=
        countP_zero_of_find?_none hfind
      refine ⟨?_, ?_, ?_⟩
      · unfold activeCount
        simp only [createOrUpdateTicket, hfind, Bool.false_eq_true, if_false]
        rw [List.countP_append, h0]
        simp [List.countP_cons, isActiveFor]
      · intro t _ hsome
        exact absurd hsome (by simp)
      · intro _ _
        simp [createOrUpdateTicket, hfind]

/-- Witness for C9: creating the first ticket in an empty table. -/
theorem C9_single_active_ticket_invariant_witness :
    activeCount (createOrUpdateTicket false [] "r1" "A1" "T1" rC5).1 "r1" ≤ 1 ∧
    (createOrUpdateTicket false [] "r1" "A1" "T1" rC5).1 =
      [{ tid := "T1", review := "r1", analysisResult := "A1", status := "open",
         priority := calculatePriority rC5, notes := generateTicketNotes rC5 }] :=
  ⟨(C9_single_active_ticket_invariant false [] "r1" "A1" "T1" rC5 (by decide)).1,
   (C9_single_active_ticket_invariant false [] "r1" "A1" "T1" rC5 (by decide)).2.2
     rfl rfl⟩

theorem persistProcess_ticketId_null (params : Params) (review : Review)
    (ts fr ft : String) (ctx : Ctx) (st : DBState)
    (h : ctxGet ctx "ticket_id" = none) :
    ctxGetD (persistProcess params review ts fr ft true ctx st).1
      "ticket_id" Val.null = Val.null := by
  unfold persistProcess
  by_cases hS : shouldCreateTicket params review
      (updateOrCreate st.results review.id fr
        (buildAnalysisData review (persistCtxWithSteps ctx) ts)).saved = true
  · simp only [hS, if_true, createOrUpdateTicket]
    simp only [ctxGetD, ctxGet_ctxSet_self]
    rfl
  · simp only [Bool.not_eq_true] at hS
    simp only [hS, Bool.false_eq_true, if_false]
    unfold persistCtxWithSteps
    simp only [ctxGetD, ctxGet_ctxSet_ne _ _ _ _ (by decide : ("ticket_id" : String) ≠ "analysis_created"),
      ctxGet_ctxSet_ne _ _ _ _ (by decide : ("ticket_id" : String) ≠ "analysis_result_id"),
      ctxGet_ctxSet_ne _ _ _ _ (by decide : ("ticket_id" : String) ≠ "executed_steps"), h]
    rfl

/-- Claim C10 (implicit): if creating or updating the ReviewTicket
raises, the exception is swallowed inside the persistence step: the
AnalysisResult upsert already performed is kept, the step completes
normally with context ticket_id set to None, and a run whose persistence
step hits this failure still returns success with no ticket id. -/
theorem C10_ticket_exception_swallowed
    (params : Params) (review : Review) (ts freshResId freshTicketId : String)
    (ctx : Ctx) (st : DBState)
    (hticket : shouldCreateTicket params review
      (persistedResult review ctx ts freshResId st.results) = true) :
    ctxGet (persistProcess params review ts freshResId freshTicketId true ctx st).1
      "ticket_id" = some Val.null ∧
    (persistProcess params review ts freshResId freshTicketId true ctx st).2.results =
      (updateOrCreate st.results review.id freshResId
        (buildAnalysisData review (persistCtxWithSteps ctx) ts)).rows ∧
    (persistProcess params review ts freshResId freshTicketId true ctx st).2.tickets =
      st.tickets ∧
    ∀ (cfgParams : Params) (clientConfigured : Bool) (g : GptOutcome),
      (runPipeline (stdRegistry ts freshResId freshTicketId true clientConfigured g)
        [⟨"persistence", cfgParams⟩] review ts freshResId st).1.success = true ∧
      (runPipeline (stdRegistry ts freshResId freshTicketId true clientConfigured g)
        [⟨"persistence", cfgParams⟩] review ts freshResId st).1.ticketId =
        some Val.null := by
  have hticket' : shouldCreateTicket params review
      (updateOrCreate st.results review.id freshResId
        (buildAnalysisData review (persistCtxWithSteps ctx) ts)).saved = true := hticket
  refine ⟨?_, ?_, ?_, ?_⟩
  · simp only [persistProcess, hticket', if_true, createOrUpdateTicket]
    exact ctxGet_ctxSet_self _ _ _
  · simp only [persistProcess, hticket', if_true, createOrUpdateTicket]
  · simp only [persistProcess, hticket', if_true, createOrUpdateTicket]
  · intro cfgParams cc g
    constructor
    · unfold runPipeline
      simp
    · unfold runPipeline
      simp only [List.isEmpty_cons, Bool.false_eq_true, if_false, runSteps, stdRegistry,
        persistStep, String.reduceEq, reduceIte]
      congr 1
      rw [ctxGetD, ctxGet_ctxSet_ne _ _ _ _ (by decide : ("ticket_id" : String) ≠ "executed_steps")]
      rw [← ctxGetD]
      apply persistProcess_ticketId_null
      simp [initialCtx, ctxGet]

/-- Witness for C10: the rating-5 problem review (which warrants a
ticket through its support flag) with a failing ticket operation. -/
theorem C10_ticket_exception_swallowed_witness :
    ctxGet (persistProcess paramsC2 reviewC2 "T" "A1" "T1" true ctxC2 dbEmpty).1
      "ticket_id" = some Val.null ∧
    (persistProcess paramsC2 reviewC2 "T" "A1" "T1" true ctxC2 dbEmpty).2.tickets =
      dbEmpty.tickets ∧
    (runPipeline (stdRegistry "T" "A1" "T1" true false (Except.error "down"))
      [⟨"persistence", paramsC2⟩] reviewC2 "T" "A1" dbEmpty).1.success = true :=
  ⟨(C10_ticket_exception_swallowed paramsC2 reviewC2 "T" "A1" "T1" ctxC2 dbEmpty
      (by decide)).1,
   (C10_ticket_exception_swallowed paramsC2 reviewC2 "T" "A1" "T1" ctxC2 dbEmpty
      (by decide)).2.2.1,
   ((C10_ticket_exception_swallowed paramsC2 reviewC2 "T" "A1" "T1" ctxC2 dbEmpty
      (by decide)).2.2.2 paramsC2 false (Except.error "down")).1⟩

/-- Enabled configs of the C4 run: a successfully executing
gpt_analysis step (no client configured makes it a deterministic no-op)
followed by persistence. -/
def cfgsC4 : List StepConfig := [⟨"gpt_analysis", []⟩, ⟨"persistence", []⟩]

/-- Registry for the C4 run. -/
def regC4 : Registry := stdRegistry "T" "A1" "T1" false false (Except.error "")

/-- A concrete review for the C4 run. -/
def reviewC4 : Review :=
  { id := "r4", appName := "Game", platform := "apple", rating := 2,
    title := "Bad", content := "x" }

/-- Claim C4, settled against the code: in a run where gpt_analysis
executes successfully before persistence, the orchestrator's executed
log is ["gpt_analysis", "persistence"], but the stored
full_payload.executed_steps is only ["persistence"] — the orchestrator
writes the log into the context only after the step loop, so the
persistence step never sees it. -/
theorem C4_full_payload_misses_prior_executed_steps :
    (savedRowFor (runPipeline regC4 cfgsC4 reviewC4 "T" "A1" dbEmpty).2 "r4").map
        (fun row => payloadField row.data "executed_steps") =
      some (Val.list [Val.str "persistence"]) ∧
    (runSteps regC4 reviewC4 cfgsC4 (initialCtx reviewC4) dbEmpty []).2.2 =
      ["gpt_analysis", "persistence"] ∧
    Val.list [Val.str "persistence"] ≠
      Val.list [Val.str "gpt_analysis", Val.str "persistence"] := by
  refine ⟨rfl, rfl, ?_⟩
  intro h
  have h2 := congrArg valLen h
  simp [valLen] at h2

/-- A placeholder LLM outcome for runs whose gpt step never fires. -/
def gW : GptOutcome := Except.error "unused"

/-- Deterministic two-step configuration (no LLM): tone detection then
persistence. -/
def cfgsC3 : List StepConfig := [⟨"tone_detection", []⟩, ⟨"persistence", []⟩]

/-- Persistence-only configuration. -/
def cfgsC3p : List StepConfig := [⟨"persistence", []⟩]

/-- A concrete review for the C3 runs. -/
def reviewC3 : Review :=
  { id := "r3", appName := "Game", platform := "apple", rating := 4,
    title := "Good", content := "good game" }

/-- The processing_timestamp recorded in a stored row's payload. -/
def tsOfRow : Option StoredResult → Val
  | some d => payloadField d "processing_timestamp"
  | none => Val.null

/-- Counterexample to C3 as stated: two pipeline runs on the same review
with identical deterministic configuration, executed at clock readings
one second apart, store different AnalysisResult contents (the
processing_timestamp inside full_payload differs). -/
theorem C3_counterexample_timestamp :
    ((savedRowFor (runPipeline (stdRegistry "2024-01-01T00:00:00" "A1" "T1" false false gW)
        cfgsC3p reviewC3 "2024-01-01T00:00:00" "A1" dbEmpty).2 "r3").map
      (fun row => row.data)) ≠
    ((savedRowFor (runPipeline (stdRegistry "2024-01-01T00:00:01" "A2" "T1" false false gW)
        cfgsC3p reviewC3 "2024-01-01T00:00:01" "A2"
        (runPipeline (stdRegistry "2024-01-01T00:00:00" "A1" "T1" false false gW)
          cfgsC3p reviewC3 "2024-01-01T00:00:00" "A1" dbEmpty).2).2 "r3").map
      (fun row => row.data)) := by
  intro h
  have h2 : Val.str "2024-01-01T00:00:00Z" = Val.str "2024-01-01T00:00:01Z" :=
    congrArg tsOfRow h
  exact absurd (Val.str.inj h2) (by decide)

theorem persistProcess_results (params : Params) (review : Review)
    (ts fr ft : String) (b : Bool) (ctx : Ctx) (st : DBState) :
    (persistProcess params review ts fr ft b ctx st).2.results =
      (updateOrCreate st.results review.id fr
        (buildAnalysisData review (persistCtxWithSteps ctx) ts)).rows := by
  unfold persistProcess
  by_cases hS : shouldCreateTicket params review
      (updateOrCreate st.results review.id fr
        (buildAnalysisData review (persistCtxWithSteps ctx) ts)).saved = true
  · simp [hS]
  · simp only [Bool.not_eq_true] at hS
    simp [hS]

theorem runPipelineC3_results (review : Review) (ts fr ft : String) (st : DBState) :
    (runPipeline (stdRegistry ts fr ft false false gW) cfgsC3 review ts fr st).2.results =
      (updateOrCreate st.results review.id fr
        (buildAnalysisData review
          (persistCtxWithSteps (toneDetectionProcess review (initialCtx review))) ts)).rows := by
  unfold runPipeline
  simp only [cfgsC3, List.isEmpty_cons, Bool.false_eq_true, if_false, runSteps, stdRegistry,
    String.reduceEq, reduceIte, toneStep, persistStep]
  exact persistProcess_results [] review ts fr ft false
    (toneDetectionProcess review (initialCtx review)) st

theorem getD_getD (v : Option Val) (a : Val) : v.getD (v.getD a) = v.getD a := by
  cases v <;> rfl

theorem applyDefaults_idem (old : StoredResult) (d : AnalysisData) :
    applyDefaults (applyDefaults old d) d = applyDefaults old d := by
  simp only [applyDefaults]
  congr 1 <;> exact getD_getD _ _

/-- Erase the processing_timestamp entry of a stored payload. -/
def scrubPayload : Val → Val
  | Val.dict entries => Val.dict (ctxSet entries "processing_timestamp" Val.null)
  | v => v

/-- A stored result with its processing_timestamp erased. -/
def scrubTs (r : StoredResult) : StoredResult :=
  { r with full_payload := scrubPayload r.full_payload }

theorem scrub_second_run (old : StoredResult) (review : Review) (ctx2 : Ctx)
    (ts1 ts2 : String) :
    scrubTs (applyDefaults (applyDefaults old (buildAnalysisData review ctx2 ts1))
      (buildAnalysisData review ctx2 ts2)) =
    scrubTs (applyDefaults old (buildAnalysisData review ctx2 ts1)) := by
  unfold buildAnalysisData
  dsimp only
  split_ifs <;>
    simp [applyDefaults, scrubTs, scrubPayload, ctxSet]

theorem updateOrCreate_saved_of_find (rows : List ResultRow) (rid freshId : String)
    (d : AnalysisData) (row : ResultRow)
    (hfind : rows.find? (fun u => u.reviewKey == rid) = some row) :
    (updateOrCreate rows rid freshId d).saved = applyDefaults row.data d ∧
    (updateOrCreate rows rid freshId d).resId = row.resId := by
  unfold updateOrCreate
  rw [hfind]
  exact ⟨rfl, rfl⟩

theorem upsert_twice_modulo_ts (rows : List ResultRow) (rid fr1 fr2 : String)
    (review : Review) (ctx2 : Ctx) (ts1 ts2 : String) :
    scrubTs (updateOrCreate (updateOrCreate rows rid fr1
        (buildAnalysisData review ctx2 ts1)).rows rid fr2
        (buildAnalysisData review ctx2 ts2)).saved =
      scrubTs (updateOrCreate rows rid fr1 (buildAnalysisData review ctx2 ts1)).saved ∧
    (ts1 = ts2 →
      (updateOrCreate (updateOrCreate rows rid fr1
        (buildAnalysisData review ctx2 ts1)).rows rid fr2
        (buildAnalysisData review ctx2 ts2)).saved =
      (updateOrCreate rows rid fr1 (buildAnalysisData review ctx2 ts1)).saved) := by
  have hfind1 := updateOrCreate_find rows rid fr1 (buildAnalysisData review ctx2 ts1)
  have h2 := updateOrCreate_saved_of_find _ rid fr2 (buildAnalysisData review ctx2 ts2) _ hfind1
  obtain ⟨oldd, hshape1⟩ :=
    updateOrCreate_saved_shape rows rid fr1 (buildAnalysisData review ctx2 ts1)
  constructor
  · rw [h2.1]
    dsimp only
    rw [hshape1]
    exact scrub_second_run oldd review ctx2 ts1 ts2
  · intro hts
    subst hts
    rw [h2.1]
    dsimp only
    rw [hshape1, applyDefaults_idem]

/-- Claim C3 as amended: running the deterministic two-step pipeline
(tone detection + persistence, no LLM) twice on the same review with
identical configuration stores AnalysisResult contents identical except
for the processing_timestamp recorded in full_payload — byte-identical
exactly when the two runs read the same clock; and the write is an
upsert keyed by review, so at most one AnalysisResult row per review is
preserved. -/
theorem C3_reanalysis_idempotent_upsert_modulo_timestamp
    (review : Review) (ts1 ts2 fr1 fr2 ft1 ft2 : String) (st : DBState) :
    ((savedRowFor (runPipeline (stdRegistry ts2 fr2 ft2 false false gW) cfgsC3 review ts2 fr2
        (runPipeline (stdRegistry ts1 fr1 ft1 false false gW) cfgsC3 review ts1 fr1 st).2).2
        review.id).map (fun row => scrubTs row.data)) =
    ((savedRowFor (runPipeline (stdRegistry ts1 fr1 ft1 false false gW) cfgsC3 review ts1 fr1 st).2
        review.id).map (fun row => scrubTs row.data)) ∧
    (ts1 = ts2 →
      ((savedRowFor (runPipeline (stdRegistry ts2 fr2 ft2 false false gW) cfgsC3 review ts2 fr2
          (runPipeline (stdRegistry ts1 fr1 ft1 false false gW) cfgsC3 review ts1 fr1 st).2).2
          review.id).map (fun row => row.data)) =
      ((savedRowFor (runPipeline (stdRegistry ts1 fr1 ft1 false false gW) cfgsC3 review ts1 fr1 st).2
          review.id).map (fun row => row.data))) ∧
    (∀ rid, rowCount st.results rid ≤ 1 →
      rowCount (runPipeline (stdRegistry ts2 fr2 ft2 false false gW) cfgsC3 review ts2 fr2
        (runPipeline (stdRegistry ts1 fr1 ft1 false false gW) cfgsC3 review ts1 fr1 st).2).2.results
        rid ≤ 1) := by
  have hres1 := runPipelineC3_results review ts1 fr1 ft1 st
  have hres2 := runPipelineC3_results review ts2 fr2 ft2
    (runPipeline (stdRegistry ts1 fr1 ft1 false false gW) cfgsC3 review ts1 fr1 st).2
  rw [hres1] at hres2
  have hfind1 := updateOrCreate_find st.results review.id fr1
    (buildAnalysisData review
      (persistCtxWithSteps (toneDetectionProcess review (initialCtx review))) ts1)
  have hfind2 := updateOrCreate_find
    (updateOrCreate st.results review.id fr1
      (buildAnalysisData review
        (persistCtxWithSteps (toneDetectionProcess review (initialCtx review))) ts1)).rows
    review.id fr2
    (buildAnalysisData review
      (persistCtxWithSteps (toneDetectionProcess review (initialCtx review))) ts2)
  have hcore := upsert_twice_modulo_ts st.results review.id fr1 fr2 review
    (persistCtxWithSteps (toneDetectionProcess review (initialCtx review))) ts1 ts2
  refine ⟨?_, ?_, ?_⟩
  · unfold savedRowFor
    rw [hres2, hres1, hfind2, hfind1]
    simp only [Option.map_some']
    congr 1
    exact hcore.1
  · intro hts
    unfold savedRowFor
    rw [hres2, hres1, hfind2, hfind1]
    simp only [Option.map_some']
    congr 1
    exact hcore.2 hts
  · intro rid hle
    rw [hres2]
    exact updateOrCreate_rowCount _ _ _ _ _ (updateOrCreate_rowCount _ _ _ _ _ hle)

/-- Witness for the amended C3: a concrete review, empty database, and
equal clock readings for the two runs. -/
theorem C3_reanalysis_idempotent_upsert_modulo_timestamp_witness :
    ((savedRowFor (runPipeline (stdRegistry "T" "A2" "T1" false false gW) cfgsC3 reviewC3 "T" "A2"
        (runPipeline (stdRegistry "T" "A1" "T1" false false gW) cfgsC3 reviewC3 "T" "A1"
          dbEmpty).2).2 "r3").map (fun row => row.data)) =
    ((savedRowFor (runPipeline (stdRegistry "T" "A1" "T1" false false gW) cfgsC3 reviewC3 "T" "A1"
        dbEmpty).2 "r3").map (fun row => row.data)) ∧
    rowCount (runPipeline (stdRegistry "T" "A2" "T1" false false gW) cfgsC3 reviewC3 "T" "A2"
        (runPipeline (stdRegistry "T" "A1" "T1" false false gW) cfgsC3 reviewC3 "T" "A1"
          dbEmpty).2).2.results "r3" ≤ 1 :=
  ⟨(C3_reanalysis_idempotent_upsert_modulo_timestamp reviewC3 "T" "T" "A1" "A2" "T1" "T1"
      dbEmpty).2.1 rfl,
   (C3_reanalysis_idempotent_upsert_modulo_timestamp reviewC3 "T" "T" "A1" "A2" "T1" "T1"
      dbEmpty).2.2 "r3" (by decide)⟩

end ReviewPipeline
